import Mathlib

/-!
Verification of the REST-GraphQL-AI backend (`src/main.py`).

The service is a thin FastAPI/Strawberry application; the development below is a
shallow embedding of its handlers and resolvers.  External collaborators are
modelled symbolically, faithful to their documented behaviour:

* `bcrypt` (`hashpw`/`checkpw`): an ideal salted hash.  A bcrypt hash string
  encodes its salt; `checkpw` re-hashes the candidate password under that salt
  and compares, and it raises `ValueError` ("Invalid salt") when the hash
  argument is not a well-formed bcrypt string.  The digest is modelled
  injectively in (salt, password), the symbolic rendering of "collisions have
  negligible probability".
* `PyJWT` (`jwt.encode`/`jwt.decode`): an ideal MAC.  A token carries its
  payload together with the (key, algorithm, payload) triple its signature
  authenticates; `decode` succeeds exactly when the signature matches, and
  raises a `PyJWTError` otherwise (also for structurally malformed tokens).
* the SentenceTransformer embedding model: a deterministic function of the
  input text returning a fixed-length (384 for all-MiniLM-L6-v2) numeric
  vector; component values are irrelevant to every property proved here.
* the SQLAlchemy/PostgreSQL store: explicit state (`DB`), with the schema's
  uniqueness and foreign-key constraints enforced at commit time; a failed
  commit raises `IntegrityError` and persists nothing.

Exceptions are modelled with `Except`: `HTTPException` is the only error the
route/resolver boundary maps to a status code; every other exception surfaces
as a generic server fault (status 500).
-/

/-- A Python string as it matters to this program: either an ordinary literal
string, or a well-formed bcrypt hash string (which encodes its salt and, via
the ideal-digest model, the password it was computed from). -/
inductive PyStr where
  | lit : String → PyStr
  | bhash : Nat → PyStr → PyStr
deriving Repr, DecidableEq

/-- The exceptions the program can raise.  `httpException` is FastAPI's
`HTTPException(status_code, detail)`; `valueError` is what `bcrypt.checkpw`
raises on a malformed hash ("Invalid salt"); `pyJWTError` is PyJWT's decode
failure; `integrityError` is SQLAlchemy's constraint-violation error. -/
inductive PyExc where
  | httpException (status : Nat) (detail : String)
  | valueError
  | pyJWTError
  | integrityError
deriving Repr, DecidableEq

/-- `True` exactly for the errors that escape the route/resolver boundary as a
generic server fault: everything except an `HTTPException`, which FastAPI maps
to its carried status code. -/
def isDomainError : PyExc → Bool
  | .httpException _ _ => true
  | _ => false

/-- Symbolic `bcrypt.hashpw(password, salt)`: the resulting hash string records
the salt, and its digest is determined (injectively, in the ideal model) by the
salt and the password bytes. -/
def hashpw (password : PyStr) (salt : Nat) : PyStr :=
  .bhash salt password

/-- Symbolic `bcrypt.checkpw(password, hashed)`: parse the salt out of the hash
string, re-hash the candidate password under it, and compare digests.  A string
that is not a well-formed bcrypt hash does not parse and raises
`ValueError("Invalid salt")`. -/
def checkpw (password : PyStr) (hashed : PyStr) : Except PyExc Bool :=
  match hashed with
  | .bhash salt orig => .ok (decide (hashpw password salt = .bhash salt orig))
  | .lit _ => .error .valueError

/-- `hash_password` (main.py:30-31): hash with a fresh salt.  `bcrypt.gensalt()`
is nondeterministic, so the salt is passed explicitly. -/
def hash_password (salt : Nat) (password : PyStr) : PyStr :=
  hashpw password salt

/-- `verify_password` (main.py:33-34). -/
def verify_password (password : PyStr) (hashed : PyStr) : Except PyExc Bool :=
  checkpw password hashed

/-- A JWT payload: the claims dict passed to `jwt.encode`.  Only string-valued
claims occur in this program (`{"sub": username}`). -/
abbrev Payload := List (String × String)

/-- `dict.get(key)`: the value for the first matching key, if any. -/
def payloadGet (p : Payload) (key : String) : Option String :=
  (p.find? (fun kv => kv.1 = key)).map (·.2)

/-- SECRET_KEY (main.py:26). -/
def SECRET_KEY : String := "your_secret_key"

/-- ALGORITHM (main.py:27). -/
def ALGORITHM : String := "HS256"

/-- A JWT token string, symbolically: either a structurally well-formed token
carrying a payload plus its signature — modelled as the (key, algorithm,
payload) triple the signature authenticates, the ideal-MAC rendering — or a
structurally malformed string. -/
inductive TokenStr where
  | jwt (payload : Payload) (sigKey : String) (sigAlg : String) (sigPayload : Payload)
  | malformed (s : String)
deriving Repr, DecidableEq

/-- Symbolic `jwt.encode(data, key, algorithm=alg)`: a well-formed token whose
signature authenticates exactly this key, algorithm and payload. -/
def jwtEncode (data : Payload) (key : String) (alg : String) : TokenStr :=
  .jwt data key alg data

/-- Symbolic `jwt.decode(token, key, algorithms=algs)`: succeeds with the
payload iff the token is structurally well formed and its signature matches the
given key, an accepted algorithm, and the token's own payload; otherwise raises
a `PyJWTError`. -/
def jwtDecode (t : TokenStr) (key : String) (algs : List String) :
    Except PyExc Payload :=
  match t with
  | .jwt p k a sp =>
      if k = key ∧ a ∈ algs ∧ sp = p then .ok p else .error .pyJWTError
  | .malformed _ => .error .pyJWTError

/-- A token that `jwt.decode` under this application's secret and algorithm
accepts: structurally well formed, signature matching key, algorithm and
payload. -/
def tokenSigValid : TokenStr → Bool
  | .jwt p k a sp => decide (k = SECRET_KEY ∧ a = ALGORITHM ∧ sp = p)
  | .malformed _ => false

/-- `create_access_token` (main.py:36-37). -/
def create_access_token (data : Payload) : TokenStr :=
  jwtEncode data SECRET_KEY ALGORITHM

/-- users table row (main.py:52-57). -/
structure User where
  id : Int
  username : String
  password_hash : PyStr
  role : String
deriving Repr, DecidableEq

/-- categories table row (main.py:60-64). -/
structure Category where
  id : Int
  name : String
deriving Repr, DecidableEq

/-- articles table row (main.py:67-75). -/
structure Article where
  id : Int
  title : String
  content : String
  vector : String
  search_text : Option String
  category_id : Int
deriving Repr, DecidableEq

/-- The relational store: table contents plus the next primary-key values the
store will generate. -/
structure DB where
  users : List User
  categories : List Category
  articles : List Article
  nextUserId : Int
  nextCategoryId : Int
  nextArticleId : Int
deriving Repr, DecidableEq

/-- Symbolic SentenceTransformer("all-MiniLM-L6-v2") `.encode(text).tolist()`
(main.py:17, main.py:131): a deterministic function of the input text alone,
producing a fixed-length 384-dimensional numeric vector.  The individual
component values are opaque to the program, which only serializes them. -/
def modelEncode (text : String) : List Int :=
  List.replicate 384 (Int.ofNat text.length)

/-- `json.dumps` on a numeric list (main.py:132). -/
def jsonDumps (v : List Int) : String :=
  toString v

/-- `get_current_user` (main.py:39-49): decode the bearer token (a `PyJWTError`
is caught and mapped to `HTTPException(401, "Invalid token")`), then look the
subject up among the users; a missing user raises
`HTTPException(401, "User not found")`, which the `except jwt.PyJWTError`
clause does not catch. -/
def get_current_user (db : DB) (token : TokenStr) : Except PyExc User :=
  match jwtDecode token SECRET_KEY [ALGORITHM] with
  | .error _ => .error (.httpException 401 "Invalid token")
  | .ok payload =>
      match db.users.find? (fun u => payloadGet payload "sub" = some u.username) with
      | none => .error (.httpException 401 "User not found")
      | some u => .ok u

/-- An HTTP response body, one constructor per shape this application emits. -/
inductive Body where
  | protectedBody (message : String) (user : User)
  | healthBody (status : String)
  | errorDetail (detail : String)
  | internalError
deriving Repr, DecidableEq

/-- An HTTP response: status code and body. -/
structure Response where
  status : Nat
  body : Body
deriving Repr, DecidableEq

/-- Map a handler outcome to a response, as FastAPI does: an `HTTPException`
becomes a response with its status and detail; any other exception escapes as a
generic 500 server fault. -/
def surface {α : Type} (ok : α → Response) : Except PyExc α → Response
  | .ok a => ok a
  | .error (.httpException s d) => ⟨s, .errorDetail d⟩
  | .error _ => ⟨500, .internalError⟩

/-- `protected_route` (main.py:176-178), composed with the
`OAuth2PasswordBearer` dependency (main.py:28): a request with no bearer
`Authorization` header is rejected by the scheme itself with
`401 "Not authenticated"`; otherwise `get_current_user` runs and its result is
surfaced. -/
def protected_route (db : DB) (authToken : Option TokenStr) : Response :=
  match authToken with
  | none => ⟨401, .errorDetail "Not authenticated"⟩
  | some t =>
      surface (fun u => ⟨200, .protectedBody "You have access" u⟩)
        (get_current_user db t)

/-- `health_check` (main.py:180-182): a constant handler.  It takes no
arguments and mentions no session, model or store: the definition itself
witnesses that the handler touches no external dependency. -/
def health_check : Response :=
  ⟨200, .healthBody "OK"⟩

/-- `get_article` resolver (main.py:110-114): select by primary key,
`scalar_one_or_none`. -/
def get_article (db : DB) (id : Int) : Option Article :=
  db.articles.find? (fun a => a.id = id)

/-- `list_articles` resolver (main.py:104-108). -/
def list_articles (db : DB) : List Article :=
  db.articles

/-- `register_user` mutation (main.py:147-154): build a `User` from the
username and the bcrypt hash of the password — the `role` column's default
`"user"` (main.py:57) applies, since the constructor passes no role — then
`add` and `commit`.  The store's unique index on `username` (main.py:55) makes
the commit of a duplicate username raise `IntegrityError`; the failed
transaction persists nothing, so no new store state is produced.  On success
the refreshed, persisted record is returned. -/
def register_user (db : DB) (salt : Nat) (username password : String) :
    Except PyExc (DB × User) :=
  let user : User :=
    { id := db.nextUserId, username := username
      password_hash := hash_password salt (.lit password), role := "user" }
  if db.users.any (fun u => u.username = username) then
    .error .integrityError
  else
    .ok ({ db with users := db.users ++ [user], nextUserId := db.nextUserId + 1 },
         user)

/-- `create_article` mutation (main.py:128-136): compute the embedding of the
content, serialize it into the `vector` column, then `add` and `commit`.  The
handler does not pre-check the category; the store's foreign key
`articles.category_id → categories.id` (main.py:74) makes the commit raise
`IntegrityError` when no such category exists, persisting nothing.  On success
the refreshed, persisted record is returned. -/
def create_article (db : DB) (title content : String) (category_id : Int) :
    Except PyExc (DB × Article) :=
  let embedding_vector := modelEncode content
  let article : Article :=
    { id := db.nextArticleId, title := title, content := content
      vector := jsonDumps embedding_vector, search_text := none
      category_id := category_id }
  if db.categories.any (fun c => c.id = category_id) then
    .ok ({ db with articles := db.articles ++ [article],
                   nextArticleId := db.nextArticleId + 1 },
         article)
  else
    .error .integrityError

/-- The store as a route handler sees it: available with some contents, or
unreachable. -/
inductive StoreState where
  | available (db : DB)
  | unavailable
deriving Repr, DecidableEq

/-- A request to one of the plain routes this development models: `GET /health`
or `GET /protected` with an optional bearer token. -/
inductive Request where
  | healthReq
  | protectedReq (auth : Option TokenStr)
deriving Repr, DecidableEq

/-- The plain routes of the FastAPI app (main.py:163-182), dispatched over any
store state.  `/health` is the constant `health_check`.  On `/protected`, a
missing bearer header is rejected by the security scheme; with one, token
decoding runs first (main.py:41) and only a successfully decoded token reaches
the store, so an unreachable store surfaces as a generic fault only past that
point. -/
def app_handle (store : StoreState) : Request → Response
  | .healthReq => health_check
  | .protectedReq none => ⟨401, .errorDetail "Not authenticated"⟩
  | .protectedReq (some t) =>
      match jwtDecode t SECRET_KEY [ALGORITHM] with
      | .error _ => ⟨401, .errorDetail "Invalid token"⟩
      | .ok _ =>
          match store with
          | .unavailable => ⟨500, .internalError⟩
          | .available db => protected_route db (some t)

/-- A concrete store used to instantiate theorems with hypotheses: one
registered user ("alice"), one category, no articles. -/
def db0 : DB :=
  { users := [{ id := 1, username := "alice"
                password_hash := hash_password 0 (.lit "wonderland")
                role := "user" }]
    categories := [{ id := 1, name := "general" }]
    articles := []
    nextUserId := 2, nextCategoryId := 2, nextArticleId := 1 }

/-- The article record `create_article db0 "A" "same content" 1` persists. -/
def artA : Article :=
  { id := 1, title := "A", content := "same content"
    vector := jsonDumps (modelEncode "same content")
    search_text := none, category_id := 1 }

/-- The article record `create_article db0 "B" "same content" 1` persists. -/
def artB : Article :=
  { id := 1, title := "B", content := "same content"
    vector := jsonDumps (modelEncode "same content")
    search_text := none, category_id := 1 }

/-- The user record `register_user db0 3 "bob" "builder"` persists. -/
def bobUser : User :=
  { id := 2, username := "bob"
    password_hash := hash_password 3 (.lit "builder"), role := "user" }

/-- The store after `register_user db0 3 "bob" "builder"`. -/
def db0b : DB :=
  { db0 with users := db0.users ++ [bobUser], nextUserId := 3 }

/-- Decoding under the application's secret and algorithm recovers the payload
of a freshly issued token. -/
theorem jwtDecode_encode (data : Payload) :
    jwtDecode (create_access_token data) SECRET_KEY [ALGORITHM] = .ok data := by
  simp [create_access_token, jwtEncode, jwtDecode]

/-- A token whose signature or structure is invalid is rejected by decoding
under the application's secret and algorithm. -/
theorem jwtDecode_invalid (t : TokenStr) (h : tokenSigValid t = false) :
    jwtDecode t SECRET_KEY [ALGORITHM] = .error .pyJWTError := by
  cases t with
  | malformed s => rfl
  | jwt p k a sp =>
      simp only [tokenSigValid, decide_eq_false_iff_not] at h
      simp only [jwtDecode, List.mem_singleton]
      exact if_neg h

/-- A successful `create_article` stores, in the new record's `vector` column,
the serialized embedding of the content argument. -/
theorem create_article_ok_vector (db : DB) (t C : String) (cat : Int)
    (db' : DB) (a : Article)
    (h : create_article db t C cat = .ok (db', a)) :
    a.vector = jsonDumps (modelEncode C) := by
  unfold create_article at h
  split at h
  · simp only [Except.ok.injEq, Prod.mk.injEq] at h
    rw [← h.2]
  · cases h

/-- Claim C1: verifying a password against a hash freshly produced from it
succeeds, and verifying a different password against that hash fails.  Bcrypt
is modelled as an ideal salted hash (digest injective in salt and password),
the symbolic reading of the spec's "with overwhelming probability"; the fresh
salt drawn by `bcrypt.gensalt()` is an explicit argument. -/
theorem C1_verify_hash_roundtrip (salt : Nat) (P P1 P2 : PyStr) (hne : P1 ≠ P2) :
    verify_password P (hash_password salt P) = .ok true ∧
    verify_password P1 (hash_password salt P2) = .ok false := by
  constructor
  · simp [verify_password, hash_password, checkpw, hashpw]
  · simp [verify_password, hash_password, checkpw, hashpw, hne]

/-- Claim C1 witness at concrete passwords. -/
theorem C1_verify_hash_roundtrip_witness :
    PyStr.lit "alpha" ≠ PyStr.lit "beta" ∧
    (verify_password (.lit "wonderland") (hash_password 0 (.lit "wonderland")) = .ok true ∧
     verify_password (.lit "alpha") (hash_password 0 (.lit "beta")) = .ok false) :=
  ⟨by decide, C1_verify_hash_roundtrip 0 (.lit "wonderland") (.lit "alpha") (.lit "beta") (by decide)⟩

/-- Claim C5 counterexample: on the malformed hash string "nothash" (not a
well-formed bcrypt salt+digest), `verify_password` does not return `false` —
`bcrypt.checkpw` raises `ValueError` ("Invalid salt") and the code does not
catch it, contradicting "returns a boolean and never throws". -/
theorem C5_counterexample :
    verify_password (.lit "pw") (.lit "nothash") = .error .valueError := rfl

/-- Claim C5 (amended): for a well-formed bcrypt hash, `verify_password`
returns a boolean — true exactly on a match, false on any mismatch — but for a
malformed hash argument it raises `ValueError` instead of returning false. -/
theorem C5_verify_wellformed_total_malformed_throws
    (password p : PyStr) (salt : Nat) (s : String) :
    verify_password password (hash_password salt p) = .ok (decide (password = p)) ∧
    verify_password password (.lit s) = .error .valueError := by
  constructor
  · simp [verify_password, hash_password, checkpw, hashpw]
  · rfl

/-- Claim C7: looking up an article id that matches no stored article returns
null (`scalar_one_or_none` yields `None`; the resolver's `Optional` return
means no error is raised and no error result is produced). -/
theorem C7_get_article_missing (db : DB) (id : Int)
    (h : ∀ a ∈ db.articles, a.id ≠ id) :
    get_article db id = none := by
  apply List.find?_eq_none.mpr
  intro a ha
  simpa using h a ha

/-- Claim C7 witness: `db0` stores no articles, so any id misses. -/
theorem C7_get_article_missing_witness :
    (∀ a ∈ db0.articles, a.id ≠ (42 : Int)) ∧ get_article db0 42 = none :=
  ⟨by decide, C7_get_article_missing db0 42 (by decide)⟩

/-- Claim C8: in every store state, available or not, `GET /health` responds
`200 {status: "OK"}`; `health_check` is a constant taking no session, store or
model argument, so it touches no external dependency. -/
theorem C8_health_always_ok (store : StoreState) :
    app_handle store .healthReq = ⟨200, .healthBody "OK"⟩ := rfl

/-- Claim C2: decoding a token issued by `create_access_token` under the same
secret and algorithm recovers the original subject claim; and any token whose
signature or structure is invalid (e.g. altered after signing) is rejected by
`jwt.decode`, and the `/protected` flow surfaces that as a 401 "Invalid token"
response — an unauthorized response, not a success and not a generic fault. -/
theorem C2_token_roundtrip_and_invalid_rejected (data : Payload) (u : String)
    (hsub : payloadGet data "sub" = some u)
    (store : StoreState) (t : TokenStr) (hbad : tokenSigValid t = false) :
    (∃ p, jwtDecode (create_access_token data) SECRET_KEY [ALGORITHM] = .ok p ∧
        payloadGet p "sub" = some u) ∧
    app_handle store (.protectedReq (some t)) = ⟨401, .errorDetail "Invalid token"⟩ := by
  refine ⟨⟨data, jwtDecode_encode data, hsub⟩, ?_⟩
  simp [app_handle, jwtDecode_invalid t hbad]

/-- Claim C2 witness: a concrete claims dict, and a token altered after
signing (payload changed, signature still authenticating the original
payload). -/
theorem C2_token_roundtrip_and_invalid_rejected_witness :
    payloadGet [("sub", "alice")] "sub" = some "alice" ∧
    tokenSigValid (.jwt [("sub", "evil")] SECRET_KEY ALGORITHM [("sub", "alice")]) = false ∧
    ((∃ p, jwtDecode (create_access_token [("sub", "alice")]) SECRET_KEY [ALGORITHM] = .ok p ∧
        payloadGet p "sub" = some "alice") ∧
     app_handle (.available db0)
        (.protectedReq (some (.jwt [("sub", "evil")] SECRET_KEY ALGORITHM [("sub", "alice")]))) =
       ⟨401, .errorDetail "Invalid token"⟩) :=
  ⟨rfl, by decide,
   C2_token_roundtrip_and_invalid_rejected [("sub", "alice")] "alice" rfl
     (.available db0) (.jwt [("sub", "evil")] SECRET_KEY ALGORITHM [("sub", "alice")])
     (by decide)⟩

/-- Claim C3: on `/protected`, a request with no bearer token is answered 401;
a well-signed token whose subject names no existing user is answered 401
("User not found"); a well-signed token whose subject names an existing user is
answered 200 with the authenticated user's identity (username). -/
theorem C3_protected_route_auth (store : StoreState) (db : DB)
    (data : Payload) (s : String) (hsub : payloadGet data "sub" = some s) :
    (app_handle store (.protectedReq none)).status = 401 ∧
    ((∀ u ∈ db.users, u.username ≠ s) →
      app_handle (.available db) (.protectedReq (some (create_access_token data))) =
        ⟨401, .errorDetail "User not found"⟩) ∧
    ((∃ u ∈ db.users, u.username = s) →
      ∃ u, app_handle (.available db) (.protectedReq (some (create_access_token data))) =
        ⟨200, .protectedBody "You have access" u⟩ ∧ u.username = s) := by
  refine ⟨rfl, ?_, ?_⟩
  · intro hnone
    have hfind : db.users.find? (fun u => payloadGet data "sub" = some u.username) = none := by
      apply List.find?_eq_none.mpr
      intro u hu
      simp only [hsub, decide_eq_true_eq, Option.some.injEq]
      exact fun h => hnone u hu h.symm
    simp [app_handle, jwtDecode_encode, protected_route, get_current_user, hfind, surface]
  · rintro ⟨u, hu, hus⟩
    have hsome : (db.users.find? (fun x => payloadGet data "sub" = some x.username)).isSome := by
      rw [List.find?_isSome]
      exact ⟨u, hu, by simp [hsub, hus]⟩
    obtain ⟨u', hu'⟩ := Option.isSome_iff_exists.mp hsome
    have hpu' := List.find?_some hu'
    simp only [hsub, decide_eq_true_eq, Option.some.injEq] at hpu'
    refine ⟨u', ?_, hpu'.symm⟩
    simp [app_handle, jwtDecode_encode, protected_route, get_current_user, hu', surface]

/-- Claim C3 witness: the store `db0` holds the user "alice". -/
theorem C3_protected_route_auth_witness :
    payloadGet [("sub", "alice")] "sub" = some "alice" ∧
    ((app_handle (.available db0) (.protectedReq none)).status = 401 ∧
     ((∀ u ∈ db0.users, u.username ≠ "alice") →
       app_handle (.available db0)
           (.protectedReq (some (create_access_token [("sub", "alice")]))) =
         ⟨401, .errorDetail "User not found"⟩) ∧
     ((∃ u ∈ db0.users, u.username = "alice") →
       ∃ u, app_handle (.available db0)
           (.protectedReq (some (create_access_token [("sub", "alice")]))) =
         ⟨200, .protectedBody "You have access" u⟩ ∧ u.username = "alice")) :=
  ⟨rfl, C3_protected_route_auth (.available db0) db0 [("sub", "alice")] "alice" rfl⟩

/-- Claim C4 counterexample: registering the already-taken username "alice"
fails with the store's `IntegrityError`, which nothing in the code converts to
a domain `ConflictError` — `isDomainError` is false for it, so it escapes the
resolver boundary as a generic fault, contrary to the claim. -/
theorem C4_counterexample :
    register_user db0 7 "alice" "secret" = .error .integrityError ∧
    isDomainError .integrityError = false :=
  ⟨rfl, rfl⟩

/-- Claim C4 (amended): registering a username that already names an existing
user is not a success — the commit raises the store's uniqueness-violation
`IntegrityError`, which propagates unhandled as a generic fault (no code maps
it to a domain `ConflictError`) — and since the failed transaction returns no
new store state, no new record is persisted. -/
theorem C4_duplicate_registration_fails (db : DB) (salt : Nat)
    (username password : String) (hdup : ∃ u ∈ db.users, u.username = username) :
    register_user db salt username password = .error .integrityError ∧
    isDomainError .integrityError = false := by
  obtain ⟨u, hu, huname⟩ := hdup
  have hany : db.users.any (fun v => v.username = username) = true :=
    List.any_eq_true.mpr ⟨u, hu, by simp [huname]⟩
  exact ⟨by simp [register_user, hany], rfl⟩

/-- Claim C4 witness at a concrete duplicate registration. -/
theorem C4_duplicate_registration_fails_witness :
    (∃ u ∈ db0.users, u.username = "alice") ∧
    (register_user db0 9 "alice" "again" = .error .integrityError ∧
     isDomainError .integrityError = false) :=
  ⟨by decide, C4_duplicate_registration_fails db0 9 "alice" "again" (by decide)⟩

/-- Claim C6: creating an article under an existing category succeeds and
returns the persisted record, carrying the store-generated id, the given title
and content, and the serialized embedding of the content — a non-empty vector
(the model's output has fixed length 384). -/
theorem C6_create_article_persists (db : DB) (T C : String) (cat : Int)
    (hcat : ∃ c ∈ db.categories, c.id = cat) :
    ∃ db' a, create_article db T C cat = .ok (db', a) ∧
      a.id = db.nextArticleId ∧ a.title = T ∧ a.content = C ∧
      a.vector = jsonDumps (modelEncode C) ∧ modelEncode C ≠ [] ∧
      a ∈ db'.articles := by
  obtain ⟨c, hc, hcid⟩ := hcat
  have hany : db.categories.any (fun x => x.id = cat) = true :=
    List.any_eq_true.mpr ⟨c, hc, by simp [hcid]⟩
  refine ⟨{ db with
            articles := db.articles ++
              [{ id := db.nextArticleId, title := T, content := C,
                 vector := jsonDumps (modelEncode C), search_text := none,
                 category_id := cat }],
            nextArticleId := db.nextArticleId + 1 },
          { id := db.nextArticleId, title := T, content := C,
            vector := jsonDumps (modelEncode C), search_text := none,
            category_id := cat },
          ?_, rfl, rfl, rfl, rfl, ?_, ?_⟩
  · simp only [create_article, hany, if_true]
  · intro h
    have hl := congrArg List.length h
    rw [modelEncode] at hl
    simp only [List.length_replicate, List.length_nil] at hl
    exact absurd hl (by decide)
  · simp

/-- Claim C6 witness: `db0` holds category 1. -/
theorem C6_create_article_persists_witness :
    (∃ c ∈ db0.categories, c.id = (1 : Int)) ∧
    (∃ db' a, create_article db0 "T" "C" 1 = .ok (db', a) ∧
      a.id = db0.nextArticleId ∧ a.title = "T" ∧ a.content = "C" ∧
      a.vector = jsonDumps (modelEncode "C") ∧ modelEncode "C" ≠ [] ∧
      a ∈ db'.articles) :=
  ⟨by decide, C6_create_article_persists db0 "T" "C" 1 (by decide)⟩

/-- Claim C9: the stored embedding vector is a function of the content
argument only — two successful `create_article` calls with the same content
but any titles, categories and prior store states persist identical vectors
(`embedding_model.encode` receives only `content`). -/
theorem C9_embedding_content_only (db1 db2 : DB) (t1 t2 C : String)
    (cat1 cat2 : Int) (db1' db2' : DB) (a1 a2 : Article)
    (h1 : create_article db1 t1 C cat1 = .ok (db1', a1))
    (h2 : create_article db2 t2 C cat2 = .ok (db2', a2)) :
    a1.vector = a2.vector := by
  rw [create_article_ok_vector db1 t1 C cat1 db1' a1 h1,
      create_article_ok_vector db2 t2 C cat2 db2' a2 h2]

/-- Claim C9 witness: two concrete creations sharing content, differing in
title. -/
theorem C9_embedding_content_only_witness : artA.vector = artB.vector :=
  C9_embedding_content_only db0 db0 "A" "B" "same content" 1 1
    { db0 with articles := db0.articles ++ [artA], nextArticleId := db0.nextArticleId + 1 }
    { db0 with articles := db0.articles ++ [artB], nextArticleId := db0.nextArticleId + 1 }
    artA artB rfl rfl

/-- Claim C10: `register_user` accepts no role argument and constructs the row
without one, so the column default applies — every successfully registered
user, returned and persisted, has role "user". -/
theorem C10_registered_user_role_default (db : DB) (salt : Nat)
    (username password : String) (db' : DB) (u : User)
    (h : register_user db salt username password = .ok (db', u)) :
    u.role = "user" ∧ u ∈ db'.users := by
  simp only [register_user] at h
  split at h
  · cases h
  · simp only [Except.ok.injEq, Prod.mk.injEq] at h
    obtain ⟨hdb, hu⟩ := h
    subst hu
    subst hdb
    exact ⟨rfl, by simp⟩

/-- Claim C10 witness: a concrete fresh registration. -/
theorem C10_registered_user_role_default_witness :
    bobUser.role = "user" ∧ bobUser ∈ db0b.users :=
  C10_registered_user_role_default db0 3 "bob" "builder" db0b bobUser rfl
